import Mathlib

/-!
Verification of the event ingestion/dispatch subsystem of the repository
(`app/events/models.py`, `app/events/sqs_consumer.py`,
`app/events/event_router.py`, `app/events/sns_publisher.py`).

JSON values are modelled by `JVal`.  A Python string is modelled together
with the outcome that `json.loads` has on it: the constructor
`JVal.jstr s dec` carries the text `s` and `dec : Option JVal`, which is
`some v` when the text is a JSON document decoding to `v` and `none` when
`json.loads` would raise `JSONDecodeError` on it.  Clock reads
(`datetime.utcnow()`) are passed in explicitly as a `now : String`
(the ISO rendering), so that dependence on the clock is visible in the
statements.  Datetime texts are kept as their source string; pydantic's
ISO-format validation of the text itself is abstracted (all strings are
treated as parseable datetimes), which is equality-preserving and does not
affect any of the properties proved here.
-/

inductive JVal : Type where
  | jnull : JVal
  | jbool : Bool → JVal
  | jnum : Int → JVal
  | jstr : String → Option JVal → JVal
  | jarr : List JVal → JVal
  | jobj : List (String × JVal) → JVal

/-- Python `dict` lookup for an object decoded by `json.loads`: on duplicate
keys in the JSON text the last occurrence wins, so lookup takes the last
matching entry. Absent key gives `none` (Python `dict.get` default path). -/
def jlookup (fields : List (String × JVal)) (k : String) : Option JVal :=
  ((fields.filter (fun p => p.1 == k)).getLast?).map (fun p => p.2)

/-- `EventType` enum from `app/events/models.py`. -/
inductive EventType : Type where
  | user_created
  | user_updated
  | user_deleted
  | model_created
  | model_updated
deriving DecidableEq

/-- The string value of each `EventType` member. -/
def EventType.value : EventType → String
  | .user_created => "user_created"
  | .user_updated => "user_updated"
  | .user_deleted => "user_deleted"
  | .model_created => "model_created"
  | .model_updated => "model_updated"

/-- `EventType(event_type_str)`: enum lookup by value.  A non-member value
(of any hashable or unhashable type) makes the enum constructor raise
`ValueError`, modelled as `none`. -/
def eventTypeOfString (s : String) : Option EventType :=
  if s == "user_created" then some .user_created
  else if s == "user_updated" then some .user_updated
  else if s == "user_deleted" then some .user_deleted
  else if s == "model_created" then some .model_created
  else if s == "model_updated" then some .model_updated
  else none

/-- `ServiceTarget` enum from `app/events/models.py`. -/
inductive ServiceTarget : Type where
  | all
  | user_service
  | project_service
  | model_service
  | selection_service
  | notification_service
deriving DecidableEq

/-- The string value of each `ServiceTarget` member. -/
def ServiceTarget.value : ServiceTarget → String
  | .all => "all"
  | .user_service => "user_service"
  | .project_service => "project_service"
  | .model_service => "model_service"
  | .selection_service => "selection_service"
  | .notification_service => "notification_service"

/-- Python truthiness of `actual_message.get('event_type')` as used in
`if not event_type_str:` — `None` (absent key), `False`, `0`, `""`, `[]`
and `{}` are falsy. -/
def isFalsy : Option JVal → Bool
  | none => true
  | some .jnull => true
  | some (.jbool b) => !b
  | some (.jnum n) => n == 0
  | some (.jstr s _) => s.isEmpty
  | some (.jarr xs) => xs.isEmpty
  | some (.jobj fs) => fs.isEmpty

/-- Parsed event message (`EventMessage` pydantic model in
`app/events/models.py`).  `timestamp` keeps the datetime's source text. -/
structure EventMessage : Type where
  event_type : EventType
  event_id : String
  service_name : String
  timestamp : String
  data : List (String × JVal)
  metadata : List (String × JVal)

/-- The four distinct failure exits of
`SQSConsumerService.parse_event_message` (each a `return None` site in the
source, distinguished by its log message / exception handler):
malformed JSON body (`json.JSONDecodeError` handler), missing/falsy
`event_type`, unknown `event_type` (`ValueError` from the enum), and the
generic `except Exception` handler. -/
inductive ParseErr : Type where
  | malformedBody
  | missingEventType
  | unknownEventType
  | otherError
deriving DecidableEq

/-- pydantic v2 validation of a `str` field fed from
`actual_message.get(key, 'unknown')`: absent key takes the default, a
string passes through, any other value raises `ValidationError`. -/
def coerceStr : Option JVal → String → Option String
  | none, dflt => some dflt
  | some (.jstr s _), _ => some s
  | some _, _ => none

/-- pydantic v2 validation of the `datetime` field fed from
`actual_message.get('timestamp', datetime.utcnow().isoformat())`:
absent key takes the current time's ISO text, a string is parsed as an
ISO datetime (text kept, format validity abstracted), a number is an
accepted epoch timestamp (kept as its rendering), anything else raises
`ValidationError`. -/
def coerceTs : Option JVal → String → Option String
  | none, now => some now
  | some (.jstr s _), _ => some s
  | some (.jnum n), _ => some (toString n)
  | some _, _ => none

/-- pydantic v2 validation of a `Dict[str, Any]` field fed from
`actual_message.get(key, {})`: absent key takes `{}`, an object passes
through, any other value raises `ValidationError`. -/
def coerceDict : Option JVal → Option (List (String × JVal))
  | none => some []
  | some (.jobj fs) => some fs
  | some _ => none

/-- The `EventMessage(...)` construction in `parse_event_message`.  A
pydantic `ValidationError` on any field is caught by the surrounding
generic `except Exception` handler, giving the generic failure exit. -/
def buildEventMessage (et : EventType) (fields : List (String × JVal))
    (now : String) : Except ParseErr EventMessage :=
  match coerceStr (jlookup fields "event_id") "unknown",
        coerceStr (jlookup fields "service_name") "unknown",
        coerceTs (jlookup fields "timestamp") now,
        coerceDict (jlookup fields "data"),
        coerceDict (jlookup fields "metadata") with
  | some eid, some sn, some ts, some d, some md =>
      .ok { event_type := et, event_id := eid, service_name := sn,
            timestamp := ts, data := d, metadata := md }
  | _, _, _, _, _ => .error .otherError

/-- The extraction phase of `parse_event_message` on the (possibly
unwrapped) `actual_message`: read `event_type`, validate it against the
enum, and construct the `EventMessage`.  On a non-dict `actual_message`,
`.get` raises `AttributeError`, caught by the generic handler. -/
def extractEvent (actual : JVal) (now : String) : Except ParseErr EventMessage :=
  match actual with
  | .jobj fields =>
      let ets := jlookup fields "event_type"
      if isFalsy ets then .error .missingEventType
      else
        match ets with
        | some (.jstr s _) =>
            match eventTypeOfString s with
            | some et => buildEventMessage et fields now
            | none => .error .unknownEventType
        | _ => .error .unknownEventType
  | _ => .error .otherError

/-- The SNS-wrapping test `'Message' in body_data and 'TopicArn' in
body_data`, restricted to dict bodies (see `unwrapOnce` for the non-dict
paths). -/
def isSNSWrapped : JVal → Bool
  | .jobj fs => (jlookup fs "Message").isSome && (jlookup fs "TopicArn").isSome
  | _ => false

/-- The unwrapping step of `parse_event_message`: a dict body carrying both
`Message` and `TopicArn` has its `Message` string re-decoded
(`json.loads(body_data['Message'])`) as the actual event body; a dict
without both markers is the event body itself.  On a non-dict body every
Python path ends in the generic handler: for numbers/booleans/None the
membership test `'Message' in body_data` raises `TypeError`; for a list or
string the membership test evaluates but then either the subscript
`body_data['Message']` raises `TypeError` or the later `.get` raises
`AttributeError` (see `extractEvent`) — so the non-dict case is the
generic failure uniformly.  A non-string `Message` value makes
`json.loads` raise `TypeError` (generic handler); a string `Message` that
is not valid JSON raises `JSONDecodeError`, caught by the dedicated
handler. -/
def unwrapOnce : JVal → Except ParseErr JVal
  | .jobj fs =>
      if (jlookup fs "Message").isSome && (jlookup fs "TopicArn").isSome then
        match jlookup fs "Message" with
        | some (.jstr _ (some inner)) => .ok inner
        | some (.jstr _ none) => .error .malformedBody
        | some _ => .error .otherError
        | none => .error .otherError
      else .ok (.jobj fs)
  | _ => .error .otherError

/-- `SQSConsumerService.parse_event_message` on a decoded body.  -/
def parseDecoded (body_data : JVal) (now : String) : Except ParseErr EventMessage :=
  match unwrapOnce body_data with
  | .ok actual => extractEvent actual now
  | .error e => .error e

/-- `SQSConsumerService.parse_event_message`: `json.loads` on the raw
`Body` text (its outcome is the `Option JVal` carried by the string), then
unwrap and extract.  The source returns `Optional[EventMessage]`; the
failure exits are tagged here by their distinct sites (`ParseErr`). -/
def parse_event_message (bodyDec : Option JVal) (now : String) :
    Except ParseErr EventMessage :=
  match bodyDec with
  | none => .error .malformedBody
  | some v => parseDecoded v now

/-- A Python string value together with the outcome `json.loads` has on its
text (same convention as `JVal.jstr`). -/
structure PyStr : Type where
  text : String
  jsonDec : Option JVal

/-- `SQSMessage` pydantic model (`app/events/models.py`): `MessageId`,
`ReceiptHandle`, `Body` are required `str` fields; `Attributes` and
`MessageAttributes` are `Optional[Dict[str, Any]]` defaulting to `{}`. -/
structure SQSMessage : Type where
  MessageId : String
  ReceiptHandle : String
  Body : PyStr
  Attributes : Option (List (String × JVal))
  MessageAttributes : Option (List (String × JVal))

/-- pydantic v2 validation of an `Optional[Dict[str, Any]] = {}` field:
absent key takes the default `{}`, `None` is accepted (the field is
`Optional`), an object passes through, anything else raises
`ValidationError`. -/
def coerceOptDict : Option JVal → Option (Option (List (String × JVal)))
  | none => some (some [])
  | some .jnull => some none
  | some (.jobj fs) => some (some fs)
  | some _ => none

/-- `SQSMessage(**raw_msg)`: pydantic v2 validation of one raw transport
dict.  Extra keys are ignored; a missing or non-string required field, or
an invalid optional field, raises `ValidationError` (modelled `none`),
which `pull_messages` catches per message. -/
def validateSQSMessage (raw : List (String × JVal)) : Option SQSMessage :=
  match jlookup raw "MessageId", jlookup raw "ReceiptHandle",
        jlookup raw "Body" with
  | some (.jstr mid _), some (.jstr rh _), some (.jstr bs bd) =>
      match coerceOptDict (jlookup raw "Attributes"),
            coerceOptDict (jlookup raw "MessageAttributes") with
      | some attrs, some mattrs =>
          some { MessageId := mid, ReceiptHandle := rh,
                 Body := { text := bs, jsonDec := bd },
                 Attributes := attrs, MessageAttributes := mattrs }
      | _, _ => none
  | _, _, _ => none

/-- `SQSConsumerService.pull_messages`: the transport receive either raises
(caught by the outer handler of `pull_messages`, which logs and returns
`[]`) or returns a list of raw dicts; each raw dict is validated as an
`SQSMessage`, failures being logged and skipped. -/
def pull_messages (recv : Except Unit (List (List (String × JVal)))) :
    List SQSMessage :=
  match recv with
  | .error _ => []
  | .ok raws => raws.filterMap validateSQSMessage

/-- Outcome of one business-handler invocation
(`handle(data, service_name)`): `.ok b` models a returned success boolean,
`.error ()` models a raised exception. -/
def HandlerRun : Type := Except Unit Bool

/-- The handler collaborators reached by `EventRouter.route_event` through
its runtime imports, as parameters: whether each of the
`from app.services... import ...` statements succeeds, and what the
imported coroutine does on the given
`(data, service_name)` arguments.
`userCreatedA` is `app.services.user.process_external_user_created`,
`userCreatedB` is `app.services.model.process_external_user_created`
(the auto-link step), `userUpdated` is
`app.services.user.process_external_user_updated`. -/
structure Handlers : Type where
  impUserCreatedA : Bool
  userCreatedA : List (String × JVal) → String → HandlerRun
  impUserCreatedB : Bool
  userCreatedB : List (String × JVal) → String → HandlerRun
  impUserUpdated : Bool
  userUpdated : List (String × JVal) → String → HandlerRun

/-- `EventRouter.route_event` (`app/events/event_router.py`): dispatch on
`event_type`.  `ImportError` on a handler module is caught and yields
`True` ("no service method - logged only"); any other exception is caught
and yields `False`.  For `user_created`, the model auto-link handler `B`
runs only when `A` succeeded, and its returned boolean is only logged —
the function returns `A`'s `success`; only an exception from `B` flips the
result to `False`.  `user_deleted` returns `True` immediately; the
remaining enum members hit the `else` branch: "Unsupported event type",
return `False`. -/
def route_event (h : Handlers) (em : EventMessage) : Bool :=
  match em.event_type with
  | .user_created =>
      if h.impUserCreatedA then
        match h.userCreatedA em.data em.service_name with
        | .error _ => false
        | .ok success =>
            if success then
              if h.impUserCreatedB then
                match h.userCreatedB em.data em.service_name with
                | .error _ => false
                | .ok _ => success
              else true
            else success
      else true
  | .user_updated =>
      if h.impUserUpdated then
        match h.userUpdated em.data em.service_name with
        | .error _ => false
        | .ok success => success
      else true
  | .user_deleted => true
  | .model_created => false
  | .model_updated => false

/-- Per-message outcome inside the poll loop of
`start_background_consumer`: parse succeeded and routing returned `True`
(message deleted), parse succeeded and routing returned `False` (message
kept for redelivery), or parse failed (message deleted to prevent queue
clogging). -/
inductive MsgOutcome : Type where
  | processedOk
  | processedFail
  | parseDropped
deriving DecidableEq

/-- The body of the per-message block in `start_background_consumer`:
parse, route on success, decide the outcome.  Every callee converts its
own exceptions to a return value (`parse_event_message` catches all,
`route_event` catches all, `delete_message` catches all), so this block is
total and the per-message `except Exception` guard around it has nothing
left to catch. -/
def processMessage (h : Handlers) (now : String) (m : SQSMessage) : MsgOutcome :=
  match parse_event_message m.Body.jsonDec now with
  | .ok em => if route_event h em then .processedOk else .processedFail
  | .error _ => .parseDropped

/-- The `delete_message` calls issued for one message, by outcome: exactly
one call on the message's receipt handle after successful processing or
after a parse failure, none when routing failed. -/
def deleteCalls (m : SQSMessage) : MsgOutcome → List String
  | .processedOk => [m.ReceiptHandle]
  | .processedFail => []
  | .parseDropped => [m.ReceiptHandle]

/-- Observable result of one iteration of the `while self.is_running` loop
in `start_background_consumer`: the per-message outcomes in processing
order, the receipt handles deleted in order, and the sleep taken before
the next iteration (1 second normally, 5 seconds in the loop-level
exception handler). -/
structure IterationResult : Type where
  results : List (SQSMessage × MsgOutcome)
  deletes : List String
  sleepSeconds : Nat

/-- One iteration of `start_background_consumer`: pull, process each pulled
message sequentially, sleep.  The try-body is total — `pull_messages`
catches transport errors internally (returning `[]`) and each per-message
block is total (see `processMessage`) — so the loop-level `except` branch
with the 5-second delay is unreachable; the match on the (always `ok`)
body keeps that dead branch visible. -/
def consumer_iteration (h : Handlers) (now : String)
    (recv : Except Unit (List (List (String × JVal)))) : IterationResult :=
  let body : Except Unit (List (SQSMessage × MsgOutcome)) :=
    .ok ((pull_messages recv).map (fun m => (m, processMessage h now m)))
  match body with
  | .ok results =>
      { results := results
        deletes := (results.map (fun p => deleteCalls p.1 p.2)).flatten
        sleepSeconds := 1 }
  | .error _ => { results := [], deletes := [], sleepSeconds := 5 }

/-- `PublishEventRequest` pydantic model (`app/events/models.py`).  With
`use_enum_values=True` the `target_services` field holds, at runtime,
either a single enum value string or a list of them; the two shapes are
the two summands. -/
structure PublishEventRequest : Type where
  event_type : EventType
  target_services : ServiceTarget ⊕ List ServiceTarget
  data : List (String × JVal)
  source_service : String

/-- The target-list conversion shared by
`PublishEventRequest.generate_event_message` (local `target_list`) and
`SNSPublisherService._get_target_services`: a single string target is
wrapped in a one-element list, an explicit list is copied unchanged.  No
branch expands the `"all"` sentinel. -/
def get_target_services : ServiceTarget ⊕ List ServiceTarget → List ServiceTarget
  | .inl t => [t]
  | .inr ts => ts

/-- The JSON rendering of a target list as stored in
`metadata["target_services"]` (a JSON array of the enum value strings). -/
def targetsJson (ts : List ServiceTarget) : JVal :=
  .jarr (ts.map (fun t => .jstr t.value none))

/-- `PublishEventRequest.generate_event_message`: build the outbound
`EventMessage`, with `event_id` (`uuid.uuid4()`) and the publish-time
clock passed explicitly. -/
def generate_event_message (r : PublishEventRequest) (eid now : String) :
    EventMessage :=
  { event_type := r.event_type
    event_id := eid
    service_name := r.source_service
    timestamp := now
    data := r.data
    metadata := [("target_services", targetsJson (get_target_services r.target_services)),
                 ("published_at", .jstr now none)] }

/-- The transport publish call assembled by
`SNSPublisherService.publish_event`: topic, serialized envelope, subject,
and the three filterable message attributes. -/
structure SNSPublishCall : Type where
  topic_arn : String
  message : EventMessage
  subject : String
  attrEventType : EventType
  attrTargetServices : List ServiceTarget
  attrSourceService : String

/-- `SNSPublisherService.publish_event`: fail fast with no transport call
when no topic is configured (log, return `None`); otherwise build the
envelope and attributes and publish.  A transport-level exception is
caught by the surrounding handler (log, return `None`).  The result pairs
the transport call made (if any) with the returned message id. -/
def publish_event (topicArn : Option String)
    (transport : Except Unit (Option String)) (eid now : String)
    (r : PublishEventRequest) : Option SNSPublishCall × Option String :=
  match topicArn with
  | none => (none, none)
  | some arn =>
      let em := generate_event_message r eid now
      let call : SNSPublishCall :=
        { topic_arn := arn
          message := em
          subject := "Event: " ++ em.event_type.value
          attrEventType := em.event_type
          attrTargetServices := get_target_services r.target_services
          attrSourceService := em.service_name }
      match transport with
      | .error _ => (some call, none)
      | .ok mid => (some call, mid)

/-- The enumerated non-sentinel members of `ServiceTarget` — the "full
list of known downstream service names" the spec says the broadcast
sentinel expands to. -/
def knownTargets : List ServiceTarget :=
  [.user_service, .project_service, .model_service,
   .selection_service, .notification_service]

/-- The parse result's error tag, `none` on success (used to compare parse
outcomes without comparing whole envelopes). -/
def errKind : Except ParseErr EventMessage → Option ParseErr
  | .ok _ => none
  | .error e => some e

/-- The parsed envelope's timestamp, `none` on parse failure. -/
def parsedTimestamp : Except ParseErr EventMessage → Option String
  | .ok em => some em.timestamp
  | .error _ => none

/-- The decoded body after the (at most one) SNS unwrap step, `none` when
decode or unwrap fails. -/
def effectiveBody : Option JVal → Option JVal
  | none => none
  | some v =>
      match unwrapOnce v with
      | .ok a => some a
      | .error _ => none

/-- A transport body of the SNS subscription shape
`{"Message": "<json text decoding to v>", "TopicArn": "..."}`. -/
def wrapSNS (msgText arnText : String) (v : JVal) : JVal :=
  .jobj [("Message", .jstr msgText (some v)), ("TopicArn", .jstr arnText none)]

/-- Handlers whose imports succeed and which all return success. -/
def hOk : Handlers :=
  { impUserCreatedA := true
    userCreatedA := fun _ _ => .ok true
    impUserCreatedB := true
    userCreatedB := fun _ _ => .ok true
    impUserUpdated := true
    userUpdated := fun _ _ => .ok true }

/-- `hOk` with the auto-link handler `B` returning failure. -/
def hBfails : Handlers :=
  { hOk with userCreatedB := fun _ _ => .ok false }

/-- `hOk` with handler `A` returning failure. -/
def hAfails : Handlers :=
  { hOk with userCreatedA := fun _ _ => .ok false }

/-- Handlers whose `user_created` handler `A` raises exactly on a payload
carrying `n = 2` and succeeds otherwise. -/
def hBatch : Handlers :=
  { hOk with
    userCreatedA := fun d _ =>
      match jlookup d "n" with
      | some (.jnum 2) => .error ()
      | _ => .ok true }

/-- A concrete envelope of the given type with empty payload. -/
def mkEnv (et : EventType) : EventMessage :=
  { event_type := et, event_id := "e1", service_name := "svc",
    timestamp := "2024-01-01T00:00:00", data := [], metadata := [] }

/-- A received message whose body decodes to a `model_created` event. -/
def mMC : SQSMessage :=
  { MessageId := "m1", ReceiptHandle := "rh1"
    Body := { text := "b1",
              jsonDec := some (.jobj [("event_type", .jstr "model_created" none)]) }
    Attributes := some [], MessageAttributes := some [] }

/-- A received message whose body decodes to a `user_deleted` event. -/
def mUD : SQSMessage :=
  { MessageId := "m2", ReceiptHandle := "rh2"
    Body := { text := "b2",
              jsonDec := some (.jobj [("event_type", .jstr "user_deleted" none)]) }
    Attributes := some [], MessageAttributes := some [] }

/-- A received message whose body carries an event type outside the enum. -/
def mUnknown : SQSMessage :=
  { MessageId := "m3", ReceiptHandle := "rh3"
    Body := { text := "b3",
              jsonDec := some (.jobj
                [("event_type", .jstr "something_not_in_the_set" none)]) }
    Attributes := some [], MessageAttributes := some [] }

/-- A raw transport dict for a `user_created` event whose payload carries
`n = i`, with MessageId `mid` and ReceiptHandle `rh`. -/
def rawUserCreated (mid rh : String) (i : Int) : List (String × JVal) :=
  [("MessageId", .jstr mid none),
   ("ReceiptHandle", .jstr rh none),
   ("Body", .jstr "body"
      (some (.jobj [("event_type", .jstr "user_created" none),
                    ("data", .jobj [("n", .jnum i)])])))]

/-- A raw transport dict missing the required `ReceiptHandle` field. -/
def rawMissingHandle : List (String × JVal) :=
  [("MessageId", .jstr "bad1" none), ("Body", .jstr "b" none)]

/-- A publish request broadcasting a `user_created` event to "all". -/
def reqAll : PublishEventRequest :=
  { event_type := .user_created, target_services := .inl .all,
    data := [], source_service := "model_management" }

/-- A decoded body that omits the `timestamp` field. -/
def bodyNoTs : Option JVal :=
  some (.jobj [("event_type", .jstr "user_created" none)])

/-- A decoded body that carries a `timestamp` but omits `event_id` and
`service_name`. -/
def bodyWithTs : JVal :=
  .jobj [("event_type", .jstr "user_created" none),
         ("timestamp", .jstr "2020-05-05T00:00:00" none)]

/-- An event body that is itself SNS-wrapper-shaped: it carries `Message`
(decoding to a plain `user_created` event) and `TopicArn` keys. -/
def wrapperShapedEvent : JVal :=
  .jobj [("Message", .jstr "inner"
            (some (.jobj [("event_type", .jstr "user_created" none)]))),
         ("TopicArn", .jstr "arn:t" none)]

/-- A plain (non-wrapper-shaped) `user_created` event body. -/
def plainEvent : JVal :=
  .jobj [("event_type", .jstr "user_created" none)]

/-- C2 counterexample: for a `model_created` event — a member of the
closed event-type set with no registered handlers — `route_event` returns
`False` (the `else` "Unsupported event type" branch), not the success
outcome the claim states, and the poll loop consequently does not delete
the message. -/
theorem c2_counterexample :
    route_event hOk (mkEnv .model_created) = false ∧
    processMessage hOk "t0" mMC = .processedFail ∧
    deleteCalls mMC (processMessage hOk "t0" mMC) = [] :=
  ⟨rfl, rfl, rfl⟩

/-- C2 (amended): only `user_deleted` gets success-by-no-op (`route_event`
returns `True` and the poll loop deletes the message exactly once); the
other handler-less members of the event-type set, `model_created` and
`model_updated`, hit the router's `else` branch, `route_event` returns
`False`, and the message is not deleted (left for redelivery). -/
theorem c2_unregistered_event_types (h : Handlers) (now : String)
    (m : SQSMessage) (em : EventMessage)
    (hp : parse_event_message m.Body.jsonDec now = .ok em) :
    (em.event_type = .user_deleted →
      route_event h em = true ∧
      deleteCalls m (processMessage h now m) = [m.ReceiptHandle]) ∧
    (em.event_type = .model_created ∨ em.event_type = .model_updated →
      route_event h em = false ∧
      deleteCalls m (processMessage h now m) = []) := by
  constructor
  · intro ht
    have hr : route_event h em = true := by simp [route_event, ht]
    exact ⟨hr, by simp [processMessage, hp, hr, deleteCalls]⟩
  · intro ht
    have hr : route_event h em = false := by
      rcases ht with ht | ht <;> simp [route_event, ht]
    exact ⟨hr, by simp [processMessage, hp, hr, deleteCalls]⟩

/-- Witness for C2 at a concrete `user_deleted` message. -/
theorem c2_witness :
    route_event hOk
      { event_type := .user_deleted, event_id := "unknown",
        service_name := "unknown", timestamp := "t0",
        data := [], metadata := [] } = true ∧
    deleteCalls mUD (processMessage hOk "t0" mUD) = [mUD.ReceiptHandle] :=
  (c2_unregistered_event_types hOk "t0" mUD
      { event_type := .user_deleted, event_id := "unknown",
        service_name := "unknown", timestamp := "t0",
        data := [], metadata := [] }
      rfl).1 rfl

/-- C3 counterexample: with the `user_created` chain `[A, B]` where `A`
succeeds and the auto-link handler `B` returns failure, `route_event`
returns `True` (B's boolean is only logged), not the failure outcome the
claim states. -/
theorem c3_counterexample :
    route_event hBfails (mkEnv .user_created) = true ∧
    route_event hBfails (mkEnv .user_created) ≠ false :=
  ⟨rfl, by decide⟩

/-- C3 (amended): handlers run in declared order and the chain
short-circuits — when `A` returns failure, `B` is not invoked (the route
outcome does not depend on `B`) and `route_event` returns failure; when
`A` succeeds, `B` runs but its returned boolean is ignored (`route_event`
returns success whatever `B` returns); only an exception raised by `B`
makes the outcome failure. -/
theorem c3_chain_order (h : Handlers)
    (hB hB' : List (String × JVal) → String → HandlerRun)
    (em : EventMessage) (b : Bool)
    (ht : em.event_type = .user_created)
    (hia : h.impUserCreatedA = true) :
    (h.userCreatedA em.data em.service_name = .ok false →
      route_event { h with userCreatedB := hB } em = false ∧
      route_event { h with userCreatedB := hB } em =
        route_event { h with userCreatedB := hB' } em) ∧
    (h.userCreatedA em.data em.service_name = .ok true →
      h.impUserCreatedB = true →
      (h.userCreatedB em.data em.service_name = .ok b →
        route_event h em = true) ∧
      (h.userCreatedB em.data em.service_name = .error () →
        route_event h em = false)) := by
  constructor
  · intro hA
    constructor <;> simp [route_event, ht, hia, hA]
  · intro hA hib
    constructor <;> intro hBr <;> simp [route_event, ht, hia, hA, hib, hBr]

/-- Witness for C3: `A` returning failure makes the route outcome failure
(with `B` never consulted). -/
theorem c3_witness :
    route_event { hAfails with userCreatedB := fun _ _ => .ok true }
      (mkEnv .user_created) = false :=
  ((c3_chain_order hAfails (fun _ _ => .ok true) (fun _ _ => .ok false)
      (mkEnv .user_created) true rfl rfl).1 rfl).1

/-- C9 counterexample: when the transport receive call raises, the next
poll is preceded by the short 1-second delay (the error is swallowed
inside `pull_messages`, which returns an empty batch), not by the longer
5-second backoff the claim states. -/
theorem c9_counterexample :
    (consumer_iteration hOk "t0" (.error ())).sleepSeconds = 1 ∧
    (consumer_iteration hOk "t0" (.error ())).sleepSeconds ≠ 5 :=
  ⟨rfl, by decide⟩

/-- C9 (amended): a transport receive error is caught inside
`pull_messages` (logged, empty batch returned) and never propagates — the
iteration behaves exactly like an empty poll: no message processed, no
delete, and the short 1-second sleep.  The 5-second backoff branch of the
loop-level handler is not reached by receive failures. -/
theorem c9_receive_error_swallowed (h : Handlers) (now : String) :
    pull_messages (.error ()) = [] ∧
    consumer_iteration h now (.error ()) = consumer_iteration h now (.ok []) ∧
    (consumer_iteration h now (.error ())).results = [] ∧
    (consumer_iteration h now (.error ())).deletes = [] ∧
    (consumer_iteration h now (.error ())).sleepSeconds = 1 :=
  ⟨rfl, rfl, rfl, rfl, rfl⟩

/-- C4: for a successfully parsed message, the poll loop deletes the
message if and only if routing returned success — `route_event = True`
yields exactly one delete of that message's receipt handle, `False`
yields none (the message is left for redelivery). -/
theorem c4_ack_iff_routed (h : Handlers) (now : String) (m : SQSMessage)
    (em : EventMessage)
    (hp : parse_event_message m.Body.jsonDec now = .ok em) :
    deleteCalls m (processMessage h now m) =
      (if route_event h em then [m.ReceiptHandle] else []) := by
  by_cases hr : route_event h em <;>
    simp [processMessage, hp, hr, deleteCalls]

/-- Witness for C4 at a concrete `user_deleted` message. -/
theorem c4_witness :
    deleteCalls mUD (processMessage hOk "t0" mUD) =
      (if route_event hOk
          { event_type := .user_deleted, event_id := "unknown",
            service_name := "unknown", timestamp := "t0",
            data := [], metadata := [] }
        then [mUD.ReceiptHandle] else []) :=
  c4_ack_iff_routed hOk "t0" mUD
    { event_type := .user_deleted, event_id := "unknown",
      service_name := "unknown", timestamp := "t0",
      data := [], metadata := [] } rfl

/-- C5: a body whose (unwrapped) object carries a non-empty `event_type`
string outside the closed event-type set parses to the
`unknownEventType` failure exit (no uncaught exception — the function is
total), and the poll loop deletes (acks) that message. -/
theorem c5_unknown_event_type (h : Handlers) (now : String) (m : SQSMessage)
    (v : JVal) (fields : List (String × JVal)) (s : String) (d : Option JVal)
    (hb : m.Body.jsonDec = some v)
    (hu : unwrapOnce v = .ok (.jobj fields))
    (he : jlookup fields "event_type" = some (.jstr s d))
    (hs : s.isEmpty = false)
    (hn : eventTypeOfString s = none) :
    parse_event_message m.Body.jsonDec now = .error .unknownEventType ∧
    processMessage h now m = .parseDropped ∧
    deleteCalls m (processMessage h now m) = [m.ReceiptHandle] := by
  have hp : parse_event_message m.Body.jsonDec now = .error .unknownEventType := by
    simp [parse_event_message, hb, parseDecoded, hu, extractEvent, he,
          isFalsy, hs, hn]
  exact ⟨hp, by simp [processMessage, hp],
         by simp [processMessage, hp, deleteCalls]⟩

/-- Witness for C5 at the concrete type string
`"something_not_in_the_set"`. -/
theorem c5_witness :
    parse_event_message mUnknown.Body.jsonDec "t0" =
      .error .unknownEventType ∧
    processMessage hOk "t0" mUnknown = .parseDropped ∧
    deleteCalls mUnknown (processMessage hOk "t0" mUnknown) =
      [mUnknown.ReceiptHandle] :=
  c5_unknown_event_type hOk "t0" mUnknown
    (.jobj [("event_type", .jstr "something_not_in_the_set" none)])
    [("event_type", .jstr "something_not_in_the_set" none)]
    "something_not_in_the_set" none rfl rfl rfl rfl rfl

/-- C6 counterexample: a body omitting `timestamp` takes the current time
as fallback, so the parsed envelope depends on the clock — two calls on
the same body at different times yield envelopes differing in the
`timestamp` field, refuting field-for-field equality. -/
theorem c6_counterexample :
    parsedTimestamp (parse_event_message bodyNoTs "2024-01-01T00:00:00") =
      some "2024-01-01T00:00:00" ∧
    parsedTimestamp (parse_event_message bodyNoTs "2024-01-02T00:00:00") =
      some "2024-01-02T00:00:00" ∧
    ("2024-01-01T00:00:00" : String) ≠ "2024-01-02T00:00:00" :=
  ⟨rfl, rfl, by decide⟩

/-- `coerceTs` reads the clock only when the field is absent. -/
theorem coerceTs_of_isSome (o : Option JVal) (now now' : String)
    (h : o.isSome = true) : coerceTs o now = coerceTs o now' := by
  cases o with
  | none => simp at h
  | some v => cases v <;> rfl

/-- `buildEventMessage` is clock-independent when `timestamp` is
present. -/
theorem buildEventMessage_now_invariant (et : EventType)
    (fields : List (String × JVal)) (now now' : String)
    (h : (jlookup fields "timestamp").isSome = true) :
    buildEventMessage et fields now = buildEventMessage et fields now' := by
  unfold buildEventMessage
  rw [coerceTs_of_isSome _ now now' h]

/-- `extractEvent` is clock-independent when the object (if it is one)
carries a `timestamp` field. -/
theorem extractEvent_now_invariant (actual : JVal) (now now' : String)
    (h : ∀ fields, actual = .jobj fields →
         (jlookup fields "timestamp").isSome = true) :
    extractEvent actual now = extractEvent actual now' := by
  cases actual <;> try rfl
  case jobj fields =>
    have hf := h fields rfl
    unfold extractEvent
    by_cases hfa : isFalsy (jlookup fields "event_type") = true
    · simp [hfa]
    · simp only [Bool.not_eq_true] at hfa
      simp only [hfa, Bool.false_eq_true, if_false]
      cases hev : jlookup fields "event_type" with
      | none => rfl
      | some w =>
        cases w <;> try rfl
        next s d =>
          cases hets : eventTypeOfString s with
          | none => simp [hets]
          | some et =>
            simp only [hets]
            exact buildEventMessage_now_invariant et fields now now' hf

/-- C6 (amended): `parse_event_message` is a deterministic function of the
body whenever the (unwrapped) object supplies a `timestamp` field —
missing `event_id`/`service_name` still take the constant `"unknown"`
default, so those omissions preserve equality; only a missing `timestamp`
is filled from the clock, making the result differ across calls (see the
counterexample). -/
theorem c6_parse_deterministic (bodyDec : Option JVal) (now now' : String)
    (hts : ∀ fields, effectiveBody bodyDec = some (.jobj fields) →
           (jlookup fields "timestamp").isSome = true) :
    parse_event_message bodyDec now = parse_event_message bodyDec now' := by
  cases bodyDec with
  | none => rfl
  | some v =>
    show parseDecoded v now = parseDecoded v now'
    unfold parseDecoded
    cases hu : unwrapOnce v with
    | error e => rfl
    | ok actual =>
      refine extractEvent_now_invariant actual now now' ?_
      intro fields hfe
      apply hts
      simp [effectiveBody, hu, hfe]

/-- Witness for C6: a body carrying a `timestamp` (and omitting
`event_id`/`service_name`) parses identically under two different
clocks. -/
theorem c6_witness :
    parse_event_message (some bodyWithTs) "t1" =
      parse_event_message (some bodyWithTs) "t2" :=
  c6_parse_deterministic (some bodyWithTs) "t1" "t2"
    (by
      intro fields hf
      injection hf with hf
      injection hf with hf
      subst hf
      rfl)

/-- C7 counterexample: when the inner event body is itself wrapper-shaped
(it carries `Message` and `TopicArn` keys), parsing it wrapped treats it
as the final payload (no `event_type` key → `missingEventType`), while
parsing the inner JSON string directly unwraps it once more and succeeds
— the two results differ, refuting the unconditional equivalence. -/
theorem c7_counterexample :
    errKind (parse_event_message
        (some (wrapSNS "S" "arn:outer" wrapperShapedEvent)) "t0") =
      some .missingEventType ∧
    errKind (parse_event_message (some wrapperShapedEvent) "t0") = none :=
  ⟨rfl, rfl⟩

/-- C7 (amended): for every inner body that is not itself wrapper-shaped,
parsing the topic-subscription wrapper
`{"Message": <json text of the body>, "TopicArn": ...}` yields exactly
the same result as parsing the inner body directly — exactly one level is
unwrapped. When the inner body is itself wrapper-shaped it is treated as
the final payload under the wrapper but gets unwrapped again when parsed
directly (see the counterexample). -/
theorem c7_one_level_unwrap (msgText arnText now : String) (v : JVal)
    (hw : isSNSWrapped v = false) :
    parse_event_message (some (wrapSNS msgText arnText v)) now =
      parse_event_message (some v) now := by
  have hl : parse_event_message (some (wrapSNS msgText arnText v)) now =
      extractEvent v now := rfl
  rw [hl]
  cases v <;> try rfl
  next fs =>
    have hw' : ((jlookup fs "Message").isSome &&
        (jlookup fs "TopicArn").isSome) = false := hw
    show extractEvent (.jobj fs) now = parseDecoded (.jobj fs) now
    have hu : unwrapOnce (.jobj fs) = .ok (.jobj fs) := by
      simp only [unwrapOnce]
      rw [if_neg]
      simp [hw']
    simp [parseDecoded, hu]

/-- Witness for C7 at a plain (non-wrapper-shaped) `user_created` body. -/
theorem c7_witness :
    isSNSWrapped plainEvent = false ∧
    parse_event_message (some (wrapSNS "S" "arn:x" plainEvent)) "t0" =
      parse_event_message (some plainEvent) "t0" :=
  ⟨rfl, c7_one_level_unwrap "S" "arn:x" "t0" plainEvent rfl⟩

/-- C8: batch isolation — the iteration's per-message results are the
pointwise results of processing each pulled message independently (one
message's processing can neither abort the loop nor change another's
outcome, and the iteration always reaches the normal 1-second sleep); in
the concrete batch of three `user_created` messages where message 2's
handler raises, messages 1 and 3 are parsed, routed and acked while
message 2's exception becomes a failure outcome (kept for redelivery). -/
theorem c8_batch_isolation :
    (∀ (h : Handlers) (now : String)
        (recv : Except Unit (List (List (String × JVal)))),
      (consumer_iteration h now recv).results =
        (pull_messages recv).map (fun m => (m, processMessage h now m)) ∧
      (consumer_iteration h now recv).sleepSeconds = 1) ∧
    (consumer_iteration hBatch "t0"
        (.ok [rawUserCreated "m1" "rh1" 1, rawUserCreated "m2" "rh2" 2,
              rawUserCreated "m3" "rh3" 3])).results.map (fun p => p.2) =
      [.processedOk, .processedFail, .processedOk] ∧
    (consumer_iteration hBatch "t0"
        (.ok [rawUserCreated "m1" "rh1" 1, rawUserCreated "m2" "rh2" 2,
              rawUserCreated "m3" "rh3" 3])).deletes = ["rh1", "rh3"] :=
  ⟨fun _ _ _ => ⟨rfl, rfl⟩, rfl, rfl⟩

/-- Every receipt handle the iteration deletes belongs to one of the
messages the iteration pulled. -/
theorem deletes_mem_pulled (h : Handlers) (now : String)
    (ms : List SQSMessage) :
    (((ms.map (fun m => (m, processMessage h now m))).map
        (fun p => deleteCalls p.1 p.2)).flatten).all
      (fun rh => ms.any (fun m => m.ReceiptHandle == rh)) = true := by
  induction ms with
  | nil => rfl
  | cons m ms ih =>
    simp only [List.map_cons, List.flatten_cons, List.all_append,
               Bool.and_eq_true]
    constructor
    · cases processMessage h now m <;> simp [deleteCalls, List.any_cons]
    · rw [List.all_eq_true] at ih ⊢
      intro x hx
      have hms := ih x hx
      simp only [List.any_cons, Bool.or_eq_true]
      exact Or.inr hms

/-- C10: `pull_messages` shape-validates each raw message against the
`SQSMessage` model, returning exactly the shape-valid messages in
received order (`filterMap`); the loop's per-message results range over
exactly that returned list, so a validation-failing raw message is never
parsed, routed or deleted — every deleted receipt handle belongs to a
validated message; concretely, a raw message missing `ReceiptHandle` is
omitted from the batch. -/
theorem c10_pull_validation (raws : List (List (String × JVal)))
    (h : Handlers) (now : String) :
    pull_messages (.ok raws) = raws.filterMap validateSQSMessage ∧
    (consumer_iteration h now (.ok raws)).results.map (fun p => p.1) =
      raws.filterMap validateSQSMessage ∧
    ((consumer_iteration h now (.ok raws)).deletes).all
      (fun rh => (raws.filterMap validateSQSMessage).any
        (fun m => m.ReceiptHandle == rh)) = true ∧
    (pull_messages (.ok [rawUserCreated "m1" "rh1" 1, rawMissingHandle])).map
      (fun m => m.MessageId) = ["m1"] := by
  refine ⟨rfl, ?_, ?_, rfl⟩
  · show ((raws.filterMap validateSQSMessage).map
        (fun m => (m, processMessage h now m))).map (fun p => p.1) =
      raws.filterMap validateSQSMessage
    induction raws.filterMap validateSQSMessage with
    | nil => rfl
    | cons m ms ih => simp only [List.map_cons, ih]
  · exact deletes_mem_pulled h now (raws.filterMap validateSQSMessage)

/-- C1 counterexample: a `PublishRequest` targeting the broadcast sentinel
`"all"` gets `metadata.target_services = ["all"]` — the literal sentinel
wrapped in a singleton list, not the full enumerated list of known target
names. -/
theorem c1_counterexample :
    jlookup (generate_event_message reqAll "eid1" "t0").metadata
        "target_services" = some (targetsJson [ServiceTarget.all]) ∧
    get_target_services reqAll.target_services = [ServiceTarget.all] ∧
    targetsJson [ServiceTarget.all] ≠ targetsJson knownTargets := by
  refine ⟨rfl, rfl, ?_⟩
  intro hcontra
  simp [targetsJson, knownTargets, ServiceTarget.value] at hcontra

/-- C1 (amended): the target list is passed through unexpanded — the
envelope's `metadata.target_services` and the transport publish call's
`target_services` message attribute both carry
`get_target_services target_services`, which wraps a single target
(including the `"all"` sentinel, kept literally) in a singleton list and
passes an explicit list of named targets through unchanged. -/
theorem c1_targets_pass_through (arn : String)
    (tr : Except Unit (Option String)) (eid now : String)
    (r : PublishEventRequest) :
    jlookup (generate_event_message r eid now).metadata "target_services" =
      some (targetsJson (get_target_services r.target_services)) ∧
    ((publish_event (some arn) tr eid now r).1).map
        (fun c => c.attrTargetServices) =
      some (get_target_services r.target_services) ∧
    (∀ ts : List ServiceTarget, get_target_services (.inr ts) = ts) ∧
    get_target_services (.inl .all) = [.all] := by
  refine ⟨rfl, ?_, fun ts => rfl, rfl⟩
  cases tr <;> rfl
